import Mathlib

/-!
# Readiness of a StatefulSet under a rolling update (`pkg/kube/wait_ext.go`)

A shallow embedding of `(*waiter).statefulSetReadyCompat` and the properties
of its verdict.

Modelling conventions:

* Go `int32` is `GoInt32`: an integer together with the proof that it lies in
  `[-2^31, 2^31 - 1]`.  Go `int` is taken as 64 bits wide; the conversion
  `int(x)` of an `int32` is exact, while `-` and `++` on `int` wrap around
  through `wrapInt`.
* A pointer field (`*int32`, `*RollingUpdateStatefulSetStrategy`) is an
  `Option`; `nil` is `none`.
* A `map[string]string` is an association list read with `List.lookup`.
* A slice `[]Pod` is `PodSlice`: a list whose length fits in a Go `int`.
* `w.podsforObject` is a field of the waiter returning `Except String PodSlice`
  (the error is kept as its message).  `w.log` appends a `LogEntry` (format
  string and arguments) to the list returned next to the verdict.
-/

namespace Kube

/-! ## Machine integers -/

/-- Width of the Go type `int`. -/
def intBits : Nat := 64

/-- Two's complement wrap-around of a mathematical integer into Go `int`. -/
def wrapInt (x : Int) : Int :=
  (x + 2 ^ (intBits - 1)) % 2 ^ intBits - 2 ^ (intBits - 1)

/-- Go `int32`: an integer in `[-2^31, 2^31 - 1]`. -/
structure GoInt32 where
  val : Int
  lo : -2147483648 ≤ val
  hi : val ≤ 2147483647

/-- The conversion `int(x)` of an `int32` value (sign extension, exact). -/
def GoInt32.toInt (x : GoInt32) : Int := x.val

/-! ## The Kubernetes objects read by the code (`k8s.io/api/apps/v1`, `core/v1`) -/

/-- `appsv1.RollingUpdateStatefulSetStrategyType`. -/
def RollingUpdateStatefulSetStrategyType : String := "RollingUpdate"

/-- `appsv1.OnDeleteStatefulSetStrategyType`. -/
def OnDeleteStatefulSetStrategyType : String := "OnDelete"

/-- `appsv1.RollingUpdateStatefulSetStrategy`; `Partition` is a `*int32`. -/
structure RollingUpdateStatefulSetStrategy where
  Partition : Option GoInt32

/-- `appsv1.StatefulSetUpdateStrategy`; the field `Type` is written `Type_`. -/
structure StatefulSetUpdateStrategy where
  Type_ : String
  RollingUpdate : Option RollingUpdateStatefulSetStrategy

/-- `appsv1.StatefulSetSpec`, the fields that are read; `Replicas` is a `*int32`. -/
structure StatefulSetSpec where
  Replicas : Option GoInt32
  UpdateStrategy : StatefulSetUpdateStrategy

/-- `appsv1.StatefulSetStatus`, the fields that are read. -/
structure StatefulSetStatus where
  ReadyReplicas : GoInt32
  UpdatedReplicas : GoInt32
  UpdateRevision : String

/-- `appsv1.StatefulSet`, with the two fields of its `ObjectMeta` that are read. -/
structure StatefulSet where
  Namespace : String
  Name : String
  Spec : StatefulSetSpec
  Status : StatefulSetStatus

/-- `sts.GetNamespace()`. -/
def StatefulSet.GetNamespace (sts : StatefulSet) : String := sts.Namespace

/-- `corev1.Pod`, with the labels of its `ObjectMeta`. -/
structure Pod where
  Labels : List (String × String)

/-- `pod.GetLabels()`. -/
def Pod.GetLabels (pod : Pod) : List (String × String) := pod.Labels

/-- A slice `[]corev1.Pod`: its length is a Go `int`. -/
structure PodSlice where
  items : List Pod
  len_lt : items.length < 2 ^ (intBits - 1)

/-! ## The waiter and its log -/

/-- One argument of a `w.log` call. -/
inductive LogArg where
  | str (s : String)
  | int (i : Int)

/-- One `w.log` call: the format string and its arguments. -/
structure LogEntry where
  format : String
  args : List LogArg

/-- The part of `waiter` used by the code: the pod lookup. -/
structure waiter where
  podsforObject : String → StatefulSet → Except String PodSlice

/-! ## `statefulSetReadyCompat` -/

/-- Lines 13 and 21-23: `partition`, zero unless both pointers are set. -/
def partitionOf (sts : StatefulSet) : Int :=
  match sts.Spec.UpdateStrategy.RollingUpdate with
  | some ru =>
    match ru.Partition with
    | some p => p.toInt
    | none => 0
  | none => 0

/-- Lines 15 and 24-26: `replicas`, one unless the pointer is set. -/
def replicasOf (sts : StatefulSet) : Int :=
  match sts.Spec.Replicas with
  | some r => r.toInt
  | none => 1

/-- Line 32: `expectedReplicas := replicas - partition`. -/
def expectedReplicas (sts : StatefulSet) : Int :=
  wrapInt (replicasOf sts - partitionOf sts)

/-- Lines 44-48: the body of the loop over the pods. -/
def recountStep (updateRevision : String) (updated : Int) (pod : Pod) : Int :=
  match pod.GetLabels.lookup "controller-revision-hash" with
  | some hash => if hash = updateRevision then wrapInt (updated + 1) else updated
  | none => updated

/-- Lines 43-49: the loop over the pods, started from the current `updated`. -/
def recount (updateRevision : String) (updated : Int) (pods : List Pod) : Int :=
  pods.foldl (recountStep updateRevision) updated

/-- Lines 52-62: the two comparisons, with `updated` as resolved before them. -/
def finalChecks (sts : StatefulSet) (updated : Int) : Bool × List LogEntry :=
  if updated ≠ expectedReplicas sts then
    (false, [⟨"StatefulSet is not ready: %s/%s. %d out of %d expected pods have been scheduled",
      [.str sts.Namespace, .str sts.Name, .int sts.Status.UpdatedReplicas.toInt,
        .int (expectedReplicas sts)]⟩])
  else if sts.Status.ReadyReplicas.toInt ≠ replicasOf sts then
    (false, [⟨"StatefulSet is not ready: %s/%s. %d out of %d expected pods are ready",
      [.str sts.Namespace, .str sts.Name, .int sts.Status.ReadyReplicas.toInt,
        .int (replicasOf sts)]⟩])
  else (true, [])

/-- The function `statefulSetReadyCompat`: the verdict and the log it writes. -/
def statefulSetReadyCompat (w : waiter) (sts : StatefulSet) : Bool × List LogEntry :=
  if sts.Spec.UpdateStrategy.Type_ ≠ RollingUpdateStatefulSetStrategyType then (true, [])
  else
    let updated : Int := sts.Status.UpdatedReplicas.toInt
    if updated = 0 then
      match w.podsforObject sts.GetNamespace sts with
      | .error err =>
        (false, [⟨"Failed to fetch pods for StatefulSet %s/%s (will retry): %s",
          [.str sts.Namespace, .str sts.Name, .str err]⟩])
      | .ok pods => finalChecks sts (recount sts.Status.UpdateRevision updated pods.items)
    else finalChecks sts updated

/-! ## Vocabulary of the properties -/

/-- The snapshot is under the rolling-update strategy. -/
def isRollingUpdate (sts : StatefulSet) : Prop :=
  sts.Spec.UpdateStrategy.Type_ = RollingUpdateStatefulSetStrategyType

instance (sts : StatefulSet) : Decidable (isRollingUpdate sts) := by
  unfold isRollingUpdate; infer_instance

/-- The pod carries the label `controller-revision-hash` with exactly this value. -/
def hasRevision (updateRevision : String) (pod : Pod) : Bool :=
  pod.Labels.lookup "controller-revision-hash" == some updateRevision

/-- Number of pods labelled with the revision. -/
def matchingPods (updateRevision : String) (pods : List Pod) : Nat :=
  pods.countP (hasRevision updateRevision)

/-- The defaulted replica count: the value of `Spec.Replicas`, 1 when it is unset. -/
def defaultedReplicas (sts : StatefulSet) : Int :=
  (sts.Spec.Replicas.map GoInt32.toInt).getD 1

/-- The defaulted partition: 0 when `RollingUpdate` or its `Partition` is unset. -/
def defaultedPartition (sts : StatefulSet) : Int :=
  ((sts.Spec.UpdateStrategy.RollingUpdate.bind (fun ru => ru.Partition)).map GoInt32.toInt).getD 0

/-- The boolean returned by `statefulSetReadyCompat`. -/
def verdict (w : waiter) (sts : StatefulSet) : Bool :=
  (statefulSetReadyCompat w sts).1

/-- The outcome of the pod lookup as the code calls it. -/
def lookup (w : waiter) (sts : StatefulSet) : Except String PodSlice :=
  w.podsforObject sts.GetNamespace sts

/-- The resolved updated count: the reported `UpdatedReplicas` when it is not zero,
otherwise the number of returned pods labelled with the update revision; none when the
lookup is needed and fails. -/
def resolvedUpdated (w : waiter) (sts : StatefulSet) : Option Int :=
  if sts.Status.UpdatedReplicas.toInt ≠ 0 then some sts.Status.UpdatedReplicas.toInt
  else
    match lookup w sts with
    | .ok pods => some (matchingPods sts.Status.UpdateRevision pods.items)
    | .error _ => none

/-- The snapshot with `Spec.Replicas` replaced. -/
def StatefulSet.withReplicas (sts : StatefulSet) (r : Option GoInt32) : StatefulSet :=
  { sts with Spec := { sts.Spec with Replicas := r } }

/-- The snapshot with `Spec.UpdateStrategy.RollingUpdate` replaced. -/
def StatefulSet.withRollingUpdate (sts : StatefulSet)
    (ru : Option RollingUpdateStatefulSetStrategy) : StatefulSet :=
  { sts with Spec := { sts.Spec with
      UpdateStrategy := { sts.Spec.UpdateStrategy with RollingUpdate := ru } } }

/-- The verdict the two comparisons give when the first one is made against `expected`
instead of `expectedReplicas`; the clamping policy of the specification is
`verdictAgainst 0` for a partition above the replica count. -/
def verdictAgainst (expected : Int) (w : waiter) (sts : StatefulSet) : Bool :=
  if sts.Spec.UpdateStrategy.Type_ ≠ RollingUpdateStatefulSetStrategyType then true
  else
    match resolvedUpdated w sts with
    | some updated =>
      decide (updated = expected ∧ sts.Status.ReadyReplicas.toInt = defaultedReplicas sts)
    | none => false

/-! ## Concrete snapshots -/

/-- A small non-negative `int32` value. -/
def i32 (n : Fin 1024) : GoInt32 :=
  ⟨n.val, by omega, by omega⟩

/-- A slice of at most a thousand pods. -/
def podSlice (pods : List Pod) (h : pods.length < 1024) : PodSlice :=
  ⟨pods, by simp only [intBits]; omega⟩

/-- A rolling-update snapshot `demo/web` at revision `web-7c9` with both pointers set. -/
def rollingSts (replicas partition updated ready : Fin 1024) : StatefulSet :=
  { Namespace := "demo", Name := "web",
    Spec := { Replicas := some (i32 replicas),
              UpdateStrategy := { Type_ := RollingUpdateStatefulSetStrategyType,
                                  RollingUpdate := some { Partition := some (i32 partition) } } },
    Status := { ReadyReplicas := i32 ready, UpdatedReplicas := i32 updated,
                UpdateRevision := "web-7c9" } }

/-- A pod labelled with the given revision hash. -/
def podAt (hash : String) : Pod := { Labels := [("app", "web"), ("controller-revision-hash", hash)] }

/-- A pod without the revision label. -/
def podBare : Pod := { Labels := [("app", "web")] }

/-- The snapshot `demo/web` under the `OnDelete` strategy, with nothing updated or ready. -/
def onDeleteSts : StatefulSet :=
  { Namespace := "demo", Name := "web",
    Spec := { Replicas := some (i32 3),
              UpdateStrategy := { Type_ := OnDeleteStatefulSetStrategyType,
                                  RollingUpdate := none } },
    Status := { ReadyReplicas := i32 0, UpdatedReplicas := i32 0,
                UpdateRevision := "web-7c9" } }

/-- A rolling-update snapshot with an empty `UpdateRevision`: two replicas, partition 2,
none reported as updated, two ready. -/
def blankRevisionSts : StatefulSet :=
  { Namespace := "demo", Name := "web",
    Spec := { Replicas := some (i32 2),
              UpdateStrategy := { Type_ := RollingUpdateStatefulSetStrategyType,
                                  RollingUpdate := some { Partition := some (i32 2) } } },
    Status := { ReadyReplicas := i32 2, UpdatedReplicas := i32 0, UpdateRevision := "" } }

/-- The largest `int32`. -/
def maxInt32 : GoInt32 := ⟨2147483647, by decide, by decide⟩

/-- The smallest `int32`. -/
def minInt32 : GoInt32 := ⟨-2147483648, by decide, by decide⟩

/-- A rolling-update snapshot at the ends of the `int32` range: replicas `2^31 - 1` under
partition `-2^31`, with `2^31 - 1` replicas reported updated and ready. -/
def extremeSts : StatefulSet :=
  { Namespace := "demo", Name := "web",
    Spec := { Replicas := some maxInt32,
              UpdateStrategy := { Type_ := RollingUpdateStatefulSetStrategyType,
                                  RollingUpdate := some { Partition := some minInt32 } } },
    Status := { ReadyReplicas := maxInt32, UpdatedReplicas := maxInt32,
                UpdateRevision := "web-7c9" } }

/-- A waiter whose lookup returns the given pods. -/
def waiterOk (pods : PodSlice) : waiter := { podsforObject := fun _ _ => .ok pods }

/-- A waiter whose lookup fails. -/
def waiterErr (msg : String) : waiter := { podsforObject := fun _ _ => .error msg }

/-! ## Lemmas on the arithmetic -/

theorem wrapInt_of_range (x : Int) (hlo : -9223372036854775808 ≤ x)
    (hhi : x < 9223372036854775808) : wrapInt x = x := by
  unfold wrapInt intBits
  norm_num
  omega

theorem replicasOf_eq_defaulted (sts : StatefulSet) : replicasOf sts = defaultedReplicas sts := by
  unfold replicasOf defaultedReplicas
  cases sts.Spec.Replicas <;> rfl

theorem partitionOf_eq_defaulted (sts : StatefulSet) :
    partitionOf sts = defaultedPartition sts := by
  unfold partitionOf defaultedPartition
  cases sts.Spec.UpdateStrategy.RollingUpdate with
  | none => rfl
  | some ru => cases h : ru.Partition <;> simp [h]

theorem replicasOf_range (sts : StatefulSet) :
    -2147483648 ≤ replicasOf sts ∧ replicasOf sts ≤ 2147483647 := by
  unfold replicasOf
  cases sts.Spec.Replicas with
  | none => constructor <;> decide
  | some r => exact ⟨r.lo, r.hi⟩

theorem partitionOf_range (sts : StatefulSet) :
    -2147483648 ≤ partitionOf sts ∧ partitionOf sts ≤ 2147483647 := by
  unfold partitionOf
  cases sts.Spec.UpdateStrategy.RollingUpdate with
  | none => constructor <;> decide
  | some ru =>
    cases hp : ru.Partition with
    | none => simp [hp]
    | some p => simp only [hp]; exact ⟨p.lo, p.hi⟩

/-- The subtraction of line 32 never wraps. -/
theorem expectedReplicas_eq (sts : StatefulSet) :
    expectedReplicas sts = replicasOf sts - partitionOf sts := by
  have hr := replicasOf_range sts
  have hp := partitionOf_range sts
  unfold expectedReplicas
  apply wrapInt_of_range <;> omega

/-! ## Lemmas on the recount loop -/

theorem recountStep_eq (rev : String) (u : Int) (pod : Pod) :
    recountStep rev u pod = if hasRevision rev pod then wrapInt (u + 1) else u := by
  unfold recountStep hasRevision Pod.GetLabels
  cases h : pod.Labels.lookup "controller-revision-hash" with
  | none => simp
  | some hash => simp

/-- While the counter stays in range the loop adds the number of matching pods. -/
theorem recount_eq (rev : String) (pods : List Pod) :
    ∀ u : Int, 0 ≤ u → u + pods.length < 9223372036854775808 →
      recount rev u pods = u + matchingPods rev pods := by
  induction pods with
  | nil => intro u _ _; simp [recount, matchingPods]
  | cons pod rest ih =>
    intro u h0 hlen
    simp only [List.length_cons, Nat.cast_add, Nat.cast_one] at hlen
    have hstep : recount rev u (pod :: rest) = recount rev (recountStep rev u pod) rest := by
      simp [recount]
    rw [hstep, recountStep_eq]
    by_cases hm : hasRevision rev pod = true
    · have hw : wrapInt (u + 1) = u + 1 := wrapInt_of_range _ (by omega) (by omega)
      rw [if_pos hm, hw, ih (u + 1) (by omega) (by omega)]
      simp only [matchingPods, List.countP_cons, hm, if_true, Nat.cast_add, Nat.cast_one]
      omega
    · rw [if_neg hm, ih u h0 (by omega)]
      simp [matchingPods, List.countP_cons, hm]

/-- The recount over a slice, started from zero, is the number of matching pods. -/
theorem recount_slice (rev : String) (pods : PodSlice) :
    recount rev 0 pods.items = matchingPods rev pods.items := by
  have h := pods.len_lt
  simp only [intBits] at h
  norm_num at h
  rw [recount_eq rev pods.items 0 (le_refl 0) (by omega)]
  simp

/-! ## Lemmas on the verdict -/

theorem finalChecks_fst (sts : StatefulSet) (updated : Int) :
    (finalChecks sts updated).1 =
      decide (updated = replicasOf sts - partitionOf sts ∧
        sts.Status.ReadyReplicas.toInt = replicasOf sts) := by
  unfold finalChecks
  rw [expectedReplicas_eq]
  by_cases h1 : updated = replicasOf sts - partitionOf sts
  · by_cases h2 : sts.Status.ReadyReplicas.toInt = replicasOf sts
    · simp [h1, h2]
    · simp [h1, h2]
  · simp [h1]

theorem result_reported (w : waiter) (sts : StatefulSet) (h : isRollingUpdate sts)
    (hu : sts.Status.UpdatedReplicas.toInt ≠ 0) :
    statefulSetReadyCompat w sts = finalChecks sts sts.Status.UpdatedReplicas.toInt := by
  unfold isRollingUpdate at h
  simp only [statefulSetReadyCompat, h, ne_eq, not_true_eq_false, if_false, hu]

theorem result_recount (w : waiter) (sts : StatefulSet) (h : isRollingUpdate sts)
    (hu : sts.Status.UpdatedReplicas.toInt = 0) (pods : PodSlice)
    (hl : lookup w sts = .ok pods) :
    statefulSetReadyCompat w sts
      = finalChecks sts (recount sts.Status.UpdateRevision 0 pods.items) := by
  unfold isRollingUpdate at h
  unfold lookup at hl
  simp only [statefulSetReadyCompat, h, ne_eq, not_true_eq_false, if_false, hu, if_true, hl]

theorem verdict_not_rolling (w : waiter) (sts : StatefulSet) (h : ¬ isRollingUpdate sts) :
    verdict w sts = true := by
  unfold isRollingUpdate at h
  simp [verdict, statefulSetReadyCompat, h]

theorem verdict_reported (w : waiter) (sts : StatefulSet) (h : isRollingUpdate sts)
    (hu : sts.Status.UpdatedReplicas.toInt ≠ 0) :
    verdict w sts =
      decide (sts.Status.UpdatedReplicas.toInt = replicasOf sts - partitionOf sts ∧
        sts.Status.ReadyReplicas.toInt = replicasOf sts) := by
  unfold isRollingUpdate at h
  simp only [verdict, statefulSetReadyCompat, h, ne_eq, not_true_eq_false, if_false, hu]
  exact finalChecks_fst sts _

theorem verdict_lookup_error (w : waiter) (sts : StatefulSet) (h : isRollingUpdate sts)
    (hu : sts.Status.UpdatedReplicas.toInt = 0) (err : String)
    (hl : lookup w sts = .error err) : verdict w sts = false := by
  unfold isRollingUpdate at h
  unfold lookup at hl
  simp [verdict, statefulSetReadyCompat, h, hu, hl]

theorem verdict_recount (w : waiter) (sts : StatefulSet) (h : isRollingUpdate sts)
    (hu : sts.Status.UpdatedReplicas.toInt = 0) (pods : PodSlice)
    (hl : lookup w sts = .ok pods) :
    verdict w sts =
      decide ((matchingPods sts.Status.UpdateRevision pods.items : Int)
          = replicasOf sts - partitionOf sts ∧
        sts.Status.ReadyReplicas.toInt = replicasOf sts) := by
  unfold isRollingUpdate at h
  unfold lookup at hl
  simp only [verdict, statefulSetReadyCompat, h, ne_eq, not_true_eq_false, if_false, hu,
    if_true, hl]
  rw [recount_slice]
  exact finalChecks_fst sts _

theorem verdict_resolved (w : waiter) (sts : StatefulSet) (h : isRollingUpdate sts) :
    verdict w sts =
      match resolvedUpdated w sts with
      | some updated =>
        decide (updated = replicasOf sts - partitionOf sts ∧
          sts.Status.ReadyReplicas.toInt = replicasOf sts)
      | none => false := by
  by_cases hu : sts.Status.UpdatedReplicas.toInt = 0
  · cases hl : lookup w sts with
    | error err => simp [resolvedUpdated, hu, hl, verdict_lookup_error w sts h hu err hl]
    | ok pods => simp [resolvedUpdated, hu, hl, verdict_recount w sts h hu pods hl]
  · simp [resolvedUpdated, hu, verdict_reported w sts h hu]

/-- The verdict is a function of the fields the code reads and of the lookup outcome. -/
theorem verdict_congr (w w' : waiter) (sts sts' : StatefulSet)
    (hT : sts'.Spec.UpdateStrategy.Type_ = sts.Spec.UpdateStrategy.Type_)
    (hU : sts'.Status.UpdatedReplicas = sts.Status.UpdatedReplicas)
    (hRd : sts'.Status.ReadyReplicas = sts.Status.ReadyReplicas)
    (hRev : sts'.Status.UpdateRevision = sts.Status.UpdateRevision)
    (hR : replicasOf sts' = replicasOf sts) (hP : partitionOf sts' = partitionOf sts)
    (hL : lookup w' sts' = lookup w sts) : verdict w' sts' = verdict w sts := by
  by_cases h : isRollingUpdate sts
  · have h' : isRollingUpdate sts' := by unfold isRollingUpdate at *; rw [hT]; exact h
    rw [verdict_resolved w sts h, verdict_resolved w' sts' h']
    simp only [resolvedUpdated, hU, hRd, hRev, hR, hP, hL]
  · have h' : ¬ isRollingUpdate sts' := by unfold isRollingUpdate at *; rw [hT]; exact h
    rw [verdict_not_rolling w sts h, verdict_not_rolling w' sts' h']

/-- On every path that reaches the comparisons, the result is the one of `finalChecks` at
the resolved updated count. -/
theorem result_resolved (w : waiter) (sts : StatefulSet) (h : isRollingUpdate sts)
    (updated : Int) (hres : resolvedUpdated w sts = some updated) :
    statefulSetReadyCompat w sts = finalChecks sts updated := by
  by_cases hu : sts.Status.UpdatedReplicas.toInt = 0
  · cases hl : lookup w sts with
    | error err => simp [resolvedUpdated, hu, hl] at hres
    | ok pods =>
      simp only [resolvedUpdated, hu, hl, ne_eq, not_true_eq_false, if_false,
        Option.some.injEq] at hres
      rw [result_recount w sts h hu pods hl, recount_slice, hres]
  · simp only [resolvedUpdated, hu, ne_eq, not_false_eq_true, if_true,
      Option.some.injEq] at hres
    rw [result_reported w sts h hu, hres]

/-- The result of `finalChecks` when the first comparison fails. -/
theorem finalChecks_first_fails (sts : StatefulSet) (updated : Int)
    (h : updated ≠ replicasOf sts - partitionOf sts) :
    finalChecks sts updated =
      (false, [⟨"StatefulSet is not ready: %s/%s. %d out of %d expected pods have been scheduled",
        [.str sts.Namespace, .str sts.Name, .int sts.Status.UpdatedReplicas.toInt,
          .int (replicasOf sts - partitionOf sts)]⟩]) := by
  unfold finalChecks
  rw [expectedReplicas_eq, if_pos h]

theorem resolvedUpdated_nonneg (w : waiter) (sts : StatefulSet)
    (h0 : 0 ≤ sts.Status.UpdatedReplicas.toInt) (updated : Int)
    (hres : resolvedUpdated w sts = some updated) : 0 ≤ updated := by
  by_cases hu : sts.Status.UpdatedReplicas.toInt = 0
  · cases hl : lookup w sts with
    | error err => simp [resolvedUpdated, hu, hl] at hres
    | ok pods =>
      simp only [resolvedUpdated, hu, hl, ne_eq, not_true_eq_false, if_false,
        Option.some.injEq] at hres
      omega
  · simp only [resolvedUpdated, hu, ne_eq, not_false_eq_true, if_true,
      Option.some.injEq] at hres
    omega

/-! ## The reported-count path -/

/-- C1: for a rolling-update snapshot whose reported `UpdatedReplicas` is not zero, the
verdict is true exactly when `UpdatedReplicas` equals the defaulted replicas minus the
defaulted partition and `ReadyReplicas` equals the defaulted replicas. -/
theorem reported_count_verdict (w : waiter) (sts : StatefulSet)
    (hRolling : isRollingUpdate sts) (hReported : sts.Status.UpdatedReplicas.toInt ≠ 0) :
    verdict w sts = true ↔
      sts.Status.UpdatedReplicas.toInt = defaultedReplicas sts - defaultedPartition sts ∧
        sts.Status.ReadyReplicas.toInt = defaultedReplicas sts := by
  rw [verdict_reported w sts hRolling hReported, replicasOf_eq_defaulted,
    partitionOf_eq_defaulted]
  exact decide_eq_true_iff

/-- Replicas 3, partition 2, one updated and three ready replicas: ready. -/
theorem reported_count_verdict_witness :
    isRollingUpdate (rollingSts 3 2 1 3) ∧
      (rollingSts 3 2 1 3).Status.UpdatedReplicas.toInt ≠ 0 ∧
      defaultedReplicas (rollingSts 3 2 1 3) = 3 ∧
      defaultedPartition (rollingSts 3 2 1 3) = 2 ∧
      verdict (waiterErr "unreachable") (rollingSts 3 2 1 3) = true :=
  ⟨by decide, by decide, by decide, by decide,
    (reported_count_verdict (waiterErr "unreachable") (rollingSts 3 2 1 3)
      (by decide) (by decide)).mpr ⟨by decide, by decide⟩⟩

/-! ## The recount path -/

/-- C2: for a rolling-update snapshot whose reported `UpdatedReplicas` is zero and a lookup
that returns pods, the verdict is true exactly when the number of returned pods whose
`controller-revision-hash` label equals `Status.UpdateRevision` is the defaulted replicas
minus the defaulted partition and `ReadyReplicas` equals the defaulted replicas. -/
theorem recount_verdict (w : waiter) (sts : StatefulSet) (pods : PodSlice)
    (hRolling : isRollingUpdate sts) (hZero : sts.Status.UpdatedReplicas.toInt = 0)
    (hLookup : lookup w sts = .ok pods) :
    verdict w sts = true ↔
      (matchingPods sts.Status.UpdateRevision pods.items : Int)
          = defaultedReplicas sts - defaultedPartition sts ∧
        sts.Status.ReadyReplicas.toInt = defaultedReplicas sts := by
  rw [verdict_recount w sts hRolling hZero pods hLookup, replicasOf_eq_defaulted,
    partitionOf_eq_defaulted]
  exact decide_eq_true_iff

/-- Replicas 2, no partition, two ready replicas: ready when both returned pods carry the
update revision, not ready when only one of the two does. -/
theorem recount_verdict_witness :
    verdict (waiterOk (podSlice [podAt "web-7c9", podAt "web-7c9"] (by decide)))
        (rollingSts 2 0 0 2) = true ∧
      ¬ verdict (waiterOk (podSlice [podAt "web-7c9", podAt "web-5d4"] (by decide)))
        (rollingSts 2 0 0 2) = true :=
  ⟨(recount_verdict (waiterOk (podSlice [podAt "web-7c9", podAt "web-7c9"] (by decide)))
      (rollingSts 2 0 0 2) _ (by decide) (by decide) rfl).mpr ⟨by decide, by decide⟩,
    fun h => absurd
      ((recount_verdict (waiterOk (podSlice [podAt "web-7c9", podAt "web-5d4"] (by decide)))
        (rollingSts 2 0 0 2) _ (by decide) (by decide) rfl).mp h).1 (by decide)⟩

/-! ## The applicability gate -/

/-- C3: a snapshot whose update strategy is not `RollingUpdate` is ready, whatever its
other fields are and whatever the waiter would return for the pod lookup. -/
theorem not_rolling_is_ready (w : waiter) (sts : StatefulSet)
    (hOther : ¬ isRollingUpdate sts) : verdict w sts = true :=
  verdict_not_rolling w sts hOther

/-- An `OnDelete` snapshot with nothing updated or ready is ready under a failing lookup. -/
theorem not_rolling_is_ready_witness :
    ¬ isRollingUpdate onDeleteSts ∧ verdict (waiterErr "connection refused") onDeleteSts = true :=
  ⟨by decide, not_rolling_is_ready (waiterErr "connection refused") onDeleteSts (by decide)⟩

/-! ## Lookup failure -/

/-- C4: for a rolling-update snapshot whose reported `UpdatedReplicas` is zero, a failing
pod lookup makes the verdict false, whatever replicas, partition and `ReadyReplicas` are. -/
theorem lookup_failure_not_ready (w : waiter) (sts : StatefulSet) (err : String)
    (hRolling : isRollingUpdate sts) (hZero : sts.Status.UpdatedReplicas.toInt = 0)
    (hLookup : lookup w sts = .error err) : verdict w sts = false :=
  verdict_lookup_error w sts hRolling hZero err hLookup

/-- Replicas 2 and partition 2 expect no updated pod; the failing lookup still gives not
ready, while the same snapshot is ready when the lookup returns no pod. -/
theorem lookup_failure_not_ready_witness :
    defaultedReplicas (rollingSts 2 2 0 2) - defaultedPartition (rollingSts 2 2 0 2) = 0 ∧
      verdict (waiterErr "connection refused") (rollingSts 2 2 0 2) = false ∧
      verdict (waiterOk (podSlice [] (by decide))) (rollingSts 2 2 0 2) = true :=
  ⟨by decide,
    lookup_failure_not_ready (waiterErr "connection refused") (rollingSts 2 2 0 2)
      "connection refused" (by decide) (by decide) rfl,
    by decide⟩

/-! ## Defaulting of the pointer fields -/

/-- C5: a snapshot with `Spec.Replicas` unset gets the verdict of the same snapshot with
`Spec.Replicas = 1`, and a snapshot with the `RollingUpdate` field unset, or with its
`Partition` unset, gets the verdict of the same snapshot with `Partition = 0`, whenever the
pod lookup has the same outcome on both. -/
theorem defaulting (w w' : waiter) (sts : StatefulSet) :
    (lookup w' (sts.withReplicas (some (i32 1))) = lookup w (sts.withReplicas none) →
      verdict w' (sts.withReplicas (some (i32 1))) = verdict w (sts.withReplicas none)) ∧
    (lookup w' (sts.withRollingUpdate (some ⟨some (i32 0)⟩))
        = lookup w (sts.withRollingUpdate none) →
      verdict w' (sts.withRollingUpdate (some ⟨some (i32 0)⟩))
        = verdict w (sts.withRollingUpdate none)) ∧
    (lookup w' (sts.withRollingUpdate (some ⟨some (i32 0)⟩))
        = lookup w (sts.withRollingUpdate (some ⟨none⟩)) →
      verdict w' (sts.withRollingUpdate (some ⟨some (i32 0)⟩))
        = verdict w (sts.withRollingUpdate (some ⟨none⟩))) := by
  refine ⟨fun hL => ?_, fun hL => ?_, fun hL => ?_⟩
  · exact verdict_congr w w' _ _ rfl rfl rfl rfl rfl rfl hL
  · exact verdict_congr w w' _ _ rfl rfl rfl rfl rfl rfl hL
  · exact verdict_congr w w' _ _ rfl rfl rfl rfl rfl rfl hL

/-- One updated and one ready replica: ready with `Replicas` unset and with `Replicas = 1`,
not ready with `Replicas = 5`; with replicas 3, three updated and three ready: ready with the
partition unset (either way) and with partition 0, not ready with partition 1. -/
theorem defaulting_witness :
    (verdict (waiterErr "down") ((rollingSts 5 0 1 1).withReplicas (some (i32 1)))
        = verdict (waiterErr "down") ((rollingSts 5 0 1 1).withReplicas none) ∧
      verdict (waiterErr "down") ((rollingSts 5 0 1 1).withReplicas none) = true ∧
      verdict (waiterErr "down") (rollingSts 5 0 1 1) = false) ∧
    (verdict (waiterErr "down") ((rollingSts 3 1 3 3).withRollingUpdate (some ⟨some (i32 0)⟩))
        = verdict (waiterErr "down") ((rollingSts 3 1 3 3).withRollingUpdate none) ∧
      verdict (waiterErr "down") ((rollingSts 3 1 3 3).withRollingUpdate (some ⟨some (i32 0)⟩))
        = verdict (waiterErr "down") ((rollingSts 3 1 3 3).withRollingUpdate (some ⟨none⟩)) ∧
      verdict (waiterErr "down") ((rollingSts 3 1 3 3).withRollingUpdate none) = true ∧
      verdict (waiterErr "down") (rollingSts 3 1 3 3) = false) :=
  ⟨⟨(defaulting (waiterErr "down") (waiterErr "down") (rollingSts 5 0 1 1)).1 rfl,
      by decide, by decide⟩,
    ⟨(defaulting (waiterErr "down") (waiterErr "down") (rollingSts 3 1 3 3)).2.1 rfl,
      (defaulting (waiterErr "down") (waiterErr "down") (rollingSts 3 1 3 3)).2.2 rfl,
      by decide, by decide⟩⟩

/-! ## Exact equality at both gates -/

/-- C6: for a rolling-update snapshot, a resolved updated count (the reported
`UpdatedReplicas` when not zero, otherwise the recount) above replicas minus partition gives
not ready, and so does a `ReadyReplicas` above replicas. -/
theorem no_overshoot (w : waiter) (sts : StatefulSet) (hRolling : isRollingUpdate sts) :
    (∀ updated : Int, resolvedUpdated w sts = some updated →
        updated > defaultedReplicas sts - defaultedPartition sts → verdict w sts = false) ∧
    (sts.Status.ReadyReplicas.toInt > defaultedReplicas sts → verdict w sts = false) := by
  rw [verdict_resolved w sts hRolling, replicasOf_eq_defaulted, partitionOf_eq_defaulted]
  constructor
  · intro updated hres hgt
    rw [hres]
    simp only [decide_eq_false_iff_not, not_and]
    intro heq
    omega
  · intro hgt
    cases resolvedUpdated w sts with
    | none => rfl
    | some updated =>
      simp only [decide_eq_false_iff_not, not_and]
      intro _ heq
      omega

/-- One updated replica more than expected, on the reported path (2 against 3 - 2) and on
the recount path (3 matching pods against 2 - 0), and one ready replica more than desired
(4 against 3): not ready each time. -/
theorem no_overshoot_witness :
    verdict (waiterErr "down") (rollingSts 3 2 2 3) = false ∧
    verdict (waiterOk (podSlice [podAt "web-7c9", podAt "web-7c9", podAt "web-7c9"] (by decide)))
      (rollingSts 2 0 0 2) = false ∧
    verdict (waiterErr "down") (rollingSts 3 0 3 4) = false :=
  ⟨(no_overshoot (waiterErr "down") (rollingSts 3 2 2 3) (by decide)).1 2 (by decide)
      (by decide),
    (no_overshoot
      (waiterOk (podSlice [podAt "web-7c9", podAt "web-7c9", podAt "web-7c9"] (by decide)))
      (rollingSts 2 0 0 2) (by decide)).1 3 (by decide) (by decide),
    (no_overshoot (waiterErr "down") (rollingSts 3 0 3 4) (by decide)).2 (by decide)⟩

/-- C7: for a rolling-update snapshot whose resolved updated count equals replicas minus
partition while `ReadyReplicas` is below replicas, the verdict is not ready; and on every
path a ready verdict implies `ReadyReplicas` equal to replicas. -/
theorem ready_gate_independent (w : waiter) (sts : StatefulSet)
    (hRolling : isRollingUpdate sts) :
    (∀ updated : Int, resolvedUpdated w sts = some updated →
        updated = defaultedReplicas sts - defaultedPartition sts →
        sts.Status.ReadyReplicas.toInt < defaultedReplicas sts → verdict w sts = false) ∧
    (verdict w sts = true → sts.Status.ReadyReplicas.toInt = defaultedReplicas sts) := by
  rw [verdict_resolved w sts hRolling, replicasOf_eq_defaulted, partitionOf_eq_defaulted]
  constructor
  · intro updated hres _ hlt
    rw [hres]
    simp only [decide_eq_false_iff_not, not_and]
    intro _ heq
    omega
  · intro hv
    cases hres : resolvedUpdated w sts with
    | none => rw [hres] at hv; exact absurd hv Bool.false_ne_true
    | some updated =>
      rw [hres] at hv
      exact (of_decide_eq_true hv).2

/-- The updated gate passes (1 = 3 - 2 reported, and 2 matching pods against 2 - 0) with one
ready replica short: not ready on both paths. -/
theorem ready_gate_independent_witness :
    verdict (waiterErr "down") (rollingSts 3 2 1 2) = false ∧
    verdict (waiterOk (podSlice [podAt "web-7c9", podAt "web-7c9"] (by decide)))
      (rollingSts 2 0 0 1) = false :=
  ⟨(ready_gate_independent (waiterErr "down") (rollingSts 3 2 1 2) (by decide)).1 1
      (by decide) (by decide) (by decide),
    (ready_gate_independent
      (waiterOk (podSlice [podAt "web-7c9", podAt "web-7c9"] (by decide)))
      (rollingSts 2 0 0 1) (by decide)).1 2 (by decide) (by decide) (by decide)⟩

/-! ## The recount -/

/-- C8: on the zero-reported path with a successful lookup, the count compared with the
expected replicas is the loop result started from the zero reported value, and it is exactly
the number of returned pods whose `controller-revision-hash` label equals
`Status.UpdateRevision`; a pod without the label leaves the counter as it is, whatever the
revision. -/
theorem recount_semantics (w : waiter) (sts : StatefulSet) (pods : PodSlice)
    (hRolling : isRollingUpdate sts) (hZero : sts.Status.UpdatedReplicas.toInt = 0)
    (hLookup : lookup w sts = .ok pods) :
    statefulSetReadyCompat w sts
        = finalChecks sts (recount sts.Status.UpdateRevision 0 pods.items) ∧
    recount sts.Status.UpdateRevision 0 pods.items
        = (matchingPods sts.Status.UpdateRevision pods.items : Int) ∧
    (∀ (rev : String) (updated : Int) (pod : Pod),
        pod.GetLabels.lookup "controller-revision-hash" = none →
          recountStep rev updated pod = updated ∧ hasRevision rev pod = false) := by
  refine ⟨result_recount w sts hRolling hZero pods hLookup, recount_slice _ pods, ?_⟩
  intro rev updated pod hnone
  constructor
  · simp only [recountStep, hnone]
  · unfold Pod.GetLabels at hnone
    simp [hasRevision, hnone]

/-- With an empty `UpdateRevision`, two pods without the label are not counted (the snapshot
expects 2 - 2 = 0 updated pods and is ready), and of three pods labelled `web-7c9`,
`web-5d4` and not at all, one is counted for revision `web-7c9`. -/
theorem recount_semantics_witness :
    recount "" 0 [podBare, podBare] = 0 ∧
    verdict (waiterOk (podSlice [podBare, podBare] (by decide))) blankRevisionSts = true ∧
    recount "web-7c9" 0 [podAt "web-7c9", podAt "web-5d4", podBare] = 1 :=
  ⟨((recount_semantics (waiterOk (podSlice [podBare, podBare] (by decide))) blankRevisionSts
      (podSlice [podBare, podBare] (by decide)) (by decide) (by decide) rfl).2.1).trans
      (by decide),
    by decide,
    ((recount_semantics
      (waiterOk (podSlice [podAt "web-7c9", podAt "web-5d4", podBare] (by decide)))
      (rollingSts 1 0 0 1) (podSlice [podAt "web-7c9", podAt "web-5d4", podBare] (by decide))
      (by decide) (by decide) rfl).2.1).trans (by decide)⟩

/-! ## A partition above the replica count -/

/-- C9, as stated, fails: with replicas 1, partition 2, no reported updated replica, a
lookup returning no pod and one ready replica, the code answers not ready, while the
comparison against an expected count clamped to zero answers ready. -/
theorem clamping_counterexample :
    isRollingUpdate (rollingSts 1 2 0 1) ∧
    defaultedPartition (rollingSts 1 2 0 1) > defaultedReplicas (rollingSts 1 2 0 1) ∧
    expectedReplicas (rollingSts 1 2 0 1) = -1 ∧
    verdict (waiterOk (podSlice [] (by decide))) (rollingSts 1 2 0 1) = false ∧
    verdictAgainst 0 (waiterOk (podSlice [] (by decide))) (rollingSts 1 2 0 1) = true := by
  decide

/-- C9, amended: for a rolling-update snapshot whose partition exceeds replicas, the expected
count is the negative difference replicas minus partition, not clamped, and the verdict is
the one of the two comparisons made against that negative value. -/
theorem negative_expected_unclamped (w : waiter) (sts : StatefulSet)
    (hRolling : isRollingUpdate sts)
    (hAbove : defaultedPartition sts > defaultedReplicas sts) :
    expectedReplicas sts = defaultedReplicas sts - defaultedPartition sts ∧
    expectedReplicas sts < 0 ∧
    verdict w sts = verdictAgainst (defaultedReplicas sts - defaultedPartition sts) w sts := by
  have hE : expectedReplicas sts = defaultedReplicas sts - defaultedPartition sts := by
    rw [expectedReplicas_eq, replicasOf_eq_defaulted, partitionOf_eq_defaulted]
  refine ⟨hE, by omega, ?_⟩
  rw [verdict_resolved w sts hRolling, replicasOf_eq_defaulted, partitionOf_eq_defaulted]
  unfold isRollingUpdate at hRolling
  simp only [verdictAgainst, hRolling, ne_eq, not_true_eq_false, if_false]

/-- Replicas 1, partition 2, no reported updated replica, a lookup returning no pod, one
ready replica: the expected count is -1 and the verdict is not ready. -/
theorem negative_expected_unclamped_witness :
    expectedReplicas (rollingSts 1 2 0 1) = -1 ∧
    verdict (waiterOk (podSlice [] (by decide))) (rollingSts 1 2 0 1) = false :=
  ⟨((negative_expected_unclamped (waiterOk (podSlice [] (by decide))) (rollingSts 1 2 0 1)
      (by decide) (by decide)).1).trans (by decide),
    ((negative_expected_unclamped (waiterOk (podSlice [] (by decide))) (rollingSts 1 2 0 1)
      (by decide) (by decide)).2.2).trans (by decide)⟩

/-! ## The lookup is consulted on a zero count only -/

/-- C10: for a rolling-update snapshot whose reported `UpdatedReplicas` is not zero, two
waiters give the same verdict, and the same log, whatever their pod lookups return. -/
theorem trust_unless_zero (w w' : waiter) (sts : StatefulSet)
    (hRolling : isRollingUpdate sts) (hReported : sts.Status.UpdatedReplicas.toInt ≠ 0) :
    verdict w sts = verdict w' sts ∧
      statefulSetReadyCompat w sts = statefulSetReadyCompat w' sts := by
  have h : statefulSetReadyCompat w sts = statefulSetReadyCompat w' sts := by
    rw [result_reported w sts hRolling hReported, result_reported w' sts hRolling hReported]
  exact ⟨congrArg Prod.fst h, h⟩

/-- Three replicas, all reported updated and ready: the same verdict under a failing
lookup and under a lookup returning no pod; with a zero reported count the two differ. -/
theorem trust_unless_zero_witness :
    verdict (waiterErr "down") (rollingSts 3 0 3 3)
        = verdict (waiterOk (podSlice [] (by decide))) (rollingSts 3 0 3 3) ∧
    verdict (waiterErr "down") (rollingSts 0 0 0 0)
        ≠ verdict (waiterOk (podSlice [] (by decide))) (rollingSts 0 0 0 0) :=
  ⟨(trust_unless_zero (waiterErr "down") (waiterOk (podSlice [] (by decide)))
      (rollingSts 3 0 3 3) (by decide) (by decide)).1,
    by decide⟩

/-! ## The message of the first comparison -/

/-- C11: for a rolling-update snapshot whose resolved updated count differs from replicas
minus partition, the result is not ready with exactly one log entry, the scheduled-pods
message, carrying the original `Status.UpdatedReplicas` and replicas minus partition; on
the recount path the reported number is 0 whatever the recount is. Nothing about
`ReadyReplicas` is assumed, so the ready message is never added to it. -/
theorem first_gate_diagnostic (w : waiter) (sts : StatefulSet) (updated : Int)
    (hRolling : isRollingUpdate sts) (hResolved : resolvedUpdated w sts = some updated)
    (hFails : updated ≠ defaultedReplicas sts - defaultedPartition sts) :
    statefulSetReadyCompat w sts =
      (false,
        [⟨"StatefulSet is not ready: %s/%s. %d out of %d expected pods have been scheduled",
          [.str sts.Namespace, .str sts.Name, .int sts.Status.UpdatedReplicas.toInt,
            .int (defaultedReplicas sts - defaultedPartition sts)]⟩]) ∧
    (sts.Status.UpdatedReplicas.toInt = 0 →
      (statefulSetReadyCompat w sts).2 =
        [⟨"StatefulSet is not ready: %s/%s. %d out of %d expected pods have been scheduled",
          [.str sts.Namespace, .str sts.Name, .int 0,
            .int (defaultedReplicas sts - defaultedPartition sts)]⟩]) := by
  rw [← replicasOf_eq_defaulted, ← partitionOf_eq_defaulted] at hFails ⊢
  have hres := result_resolved w sts hRolling updated hResolved
  rw [finalChecks_first_fails sts updated hFails] at hres
  refine ⟨hres, fun hZero => ?_⟩
  rw [hres, hZero]

/-- Two replicas, none reported updated, one ready, and a lookup returning one pod of the
update revision: the recount is 1, both gates fail, and the only message reports 0 out of
2 scheduled. -/
theorem first_gate_diagnostic_witness :
    resolvedUpdated (waiterOk (podSlice [podAt "web-7c9"] (by decide))) (rollingSts 2 0 0 1)
        = some 1 ∧
    (rollingSts 2 0 0 1).Status.ReadyReplicas.toInt ≠ defaultedReplicas (rollingSts 2 0 0 1) ∧
    statefulSetReadyCompat (waiterOk (podSlice [podAt "web-7c9"] (by decide)))
        (rollingSts 2 0 0 1) =
      (false,
        [⟨"StatefulSet is not ready: %s/%s. %d out of %d expected pods have been scheduled",
          [.str "demo", .str "web", .int 0, .int 2]⟩]) :=
  ⟨by decide, by decide,
    ((first_gate_diagnostic (waiterOk (podSlice [podAt "web-7c9"] (by decide)))
      (rollingSts 2 0 0 1) 1 (by decide) (by decide) (by decide)).1).trans rfl⟩

/-! ## A negative expected count is never met -/

/-- C12: a rolling-update snapshot with a non-negative reported `UpdatedReplicas` and a
defaulted partition strictly above the defaulted replicas is never ready, whatever the pod
lookup returns. -/
theorem negative_expected_never_ready (w : waiter) (sts : StatefulSet)
    (hRolling : isRollingUpdate sts) (hNonneg : 0 ≤ sts.Status.UpdatedReplicas.toInt)
    (hAbove : defaultedPartition sts > defaultedReplicas sts) : verdict w sts = false := by
  rw [verdict_resolved w sts hRolling, replicasOf_eq_defaulted, partitionOf_eq_defaulted]
  cases hres : resolvedUpdated w sts with
  | none => rfl
  | some updated =>
    have h0 := resolvedUpdated_nonneg w sts hNonneg updated hres
    simp only [decide_eq_false_iff_not, not_and]
    intro heq
    omega

/-- Replicas 2 under partition 5 with two ready replicas: not ready with three replicas
reported updated, and not ready on the recount path with two matching pods. -/
theorem negative_expected_never_ready_witness :
    verdict (waiterErr "down") (rollingSts 2 5 3 2) = false ∧
    verdict (waiterOk (podSlice [podAt "web-7c9", podAt "web-7c9"] (by decide)))
      (rollingSts 2 5 0 2) = false :=
  ⟨negative_expected_never_ready (waiterErr "down") (rollingSts 2 5 3 2)
      (by decide) (by decide) (by decide),
    negative_expected_never_ready
      (waiterOk (podSlice [podAt "web-7c9", podAt "web-7c9"] (by decide)))
      (rollingSts 2 5 0 2) (by decide) (by decide) (by decide)⟩

/-! ## A set scaled to zero -/

/-- C13: a rolling-update snapshot with `Spec.Replicas` set to 0, the partition unset or 0,
no replica reported updated and none ready is ready when the lookup returns no pod labelled
with `Status.UpdateRevision`; the same snapshot with `Spec.Replicas` unset is not ready,
whatever the lookup returns. -/
theorem scaled_to_zero_ready (w w' : waiter) (sts : StatefulSet) (pods : PodSlice)
    (hRolling : isRollingUpdate sts)
    (hReplicas : sts.Spec.Replicas.map GoInt32.toInt = some 0)
    (hPartition : defaultedPartition sts = 0)
    (hUpdated : sts.Status.UpdatedReplicas.toInt = 0)
    (hReady : sts.Status.ReadyReplicas.toInt = 0)
    (hLookup : lookup w sts = .ok pods)
    (hNoMatch : matchingPods sts.Status.UpdateRevision pods.items = 0) :
    verdict w sts = true ∧ verdict w' (sts.withReplicas none) = false := by
  have hR : defaultedReplicas sts = 0 := by
    unfold defaultedReplicas
    rw [hReplicas]
    rfl
  constructor
  · rw [verdict_recount w sts hRolling hUpdated pods hLookup, replicasOf_eq_defaulted,
      partitionOf_eq_defaulted, hR, hPartition, hReady, hNoMatch]
    decide
  · have hRolling' : isRollingUpdate (sts.withReplicas none) := hRolling
    have hReady' : (sts.withReplicas none).Status.ReadyReplicas.toInt = 0 := hReady
    have hR' : replicasOf (sts.withReplicas none) = 1 := rfl
    rw [verdict_resolved w' _ hRolling', hR', hReady']
    cases resolvedUpdated w' (sts.withReplicas none) with
    | none => rfl
    | some updated => simp

/-- The snapshot with zero replicas, partition 0 and nothing updated or ready is ready
under a lookup returning no pod, and under one returning a pod of another revision; with
`Spec.Replicas` unset it is not ready. -/
theorem scaled_to_zero_ready_witness :
    verdict (waiterOk (podSlice [] (by decide))) (rollingSts 0 0 0 0) = true ∧
    verdict (waiterOk (podSlice [] (by decide))) ((rollingSts 0 0 0 0).withReplicas none)
      = false ∧
    verdict (waiterOk (podSlice [podAt "web-5d4"] (by decide))) (rollingSts 0 0 0 0) = true :=
  ⟨(scaled_to_zero_ready (waiterOk (podSlice [] (by decide)))
      (waiterOk (podSlice [] (by decide))) (rollingSts 0 0 0 0) (podSlice [] (by decide))
      (by decide) (by decide) (by decide) (by decide) (by decide) rfl (by decide)).1,
    (scaled_to_zero_ready (waiterOk (podSlice [] (by decide)))
      (waiterOk (podSlice [] (by decide))) (rollingSts 0 0 0 0) (podSlice [] (by decide))
      (by decide) (by decide) (by decide) (by decide) (by decide) rfl (by decide)).2,
    (scaled_to_zero_ready (waiterOk (podSlice [podAt "web-5d4"] (by decide)))
      (waiterErr "down") (rollingSts 0 0 0 0) (podSlice [podAt "web-5d4"] (by decide))
      (by decide) (by decide) (by decide) (by decide) (by decide) rfl (by decide)).1⟩

/-! ## Exactness of the arithmetic -/

/-- C14: with `int` 64 bits wide, every `int32` converts to `int` without wrapping, the
subtraction of line 32 gives the mathematical difference of replicas and partition, both
comparisons are those of unbounded integers, and the loop over a pod list shorter than
`2^63` counts the matching pods without wrapping. -/
theorem arithmetic_exact (sts : StatefulSet) :
    (∀ x : GoInt32, wrapInt x.toInt = x.toInt) ∧
    expectedReplicas sts = defaultedReplicas sts - defaultedPartition sts ∧
    (∀ updated : Int,
      (finalChecks sts updated).1 =
        decide (updated = defaultedReplicas sts - defaultedPartition sts ∧
          sts.Status.ReadyReplicas.toInt = defaultedReplicas sts)) ∧
    (∀ (rev : String) (pods : List Pod), (pods.length : Int) < 2 ^ 63 →
      recount rev 0 pods = (matchingPods rev pods : Int)) := by
  refine ⟨fun x => ?_, ?_, fun updated => ?_, fun rev pods hlen => ?_⟩
  · have hlo := x.lo
    have hhi := x.hi
    unfold GoInt32.toInt
    apply wrapInt_of_range <;> omega
  · rw [expectedReplicas_eq, replicasOf_eq_defaulted, partitionOf_eq_defaulted]
  · rw [finalChecks_fst, replicasOf_eq_defaulted, partitionOf_eq_defaulted]
  · norm_num at hlen
    rw [recount_eq rev pods 0 (le_refl 0) (by omega)]
    simp

/-- At the ends of the `int32` range the expected count is `2^32 - 1` and the snapshot is
not ready; the model of `int` does wrap at `2^63`, out of reach of these values. -/
theorem arithmetic_exact_witness :
    expectedReplicas extremeSts = 4294967295 ∧
    verdict (waiterErr "down") extremeSts = false ∧
    wrapInt 9223372036854775808 = -9223372036854775808 ∧
    recount "web-7c9" 0 [podAt "web-7c9", podBare, podAt "web-7c9"] = 2 :=
  ⟨((arithmetic_exact extremeSts).2.1).trans (by decide),
    by decide,
    by decide,
    ((arithmetic_exact extremeSts).2.2.2 "web-7c9" [podAt "web-7c9", podBare, podAt "web-7c9"]
      (by decide)).trans (by decide)⟩

end Kube
